import Mathlib

/-!
Verification development for the vectorizer-proxy HTTP relay.

The relay (src/server.js, with sibling handler variants under src/unnamed/)
accepts a multipart image upload on POST /vectorize, forwards it to the
vectorizer.ai API, and normalizes the heterogeneous upstream response
(binary bytes vs. JSON envelope, case-varying custom headers) into a single
outbound HTTP response.

This file shallowly embeds the decision logic of the two handler variants:
  * `serverJs...`  definitions embed src/server.js (the file the Dockerfile runs);
  * `part1...`     definitions embed src/unnamed/part_001 (the variant handler).
JavaScript values flowing through the handlers are modelled by `Json`;
JavaScript truthiness, `||` chains, string conversion, base64 decoding and
multer's upload limit are modelled explicitly below, each next to a comment
citing the construct it embeds.
-/

/-- JavaScript/JSON values as axios delivers them to the handler
(`response.data` is a parsed JSON value or a plain string). -/
inductive Json where
  | null
  | bool (b : Bool)
  | num (n : Int)
  | str (s : String)
  | arr (elems : List Json)
  | obj (fields : List (String × Json))

/-- JavaScript truthiness of a value: `false`, `0`, the empty string and
`null` are falsy; every object and array is truthy.  (NaN is not
representable in this integer model.) -/
def Json.truthy : Json → Bool
  | .null => false
  | .bool b => b
  | .num n => n != 0
  | .str s => s != ""
  | .arr _ => true
  | .obj _ => true

/-- JavaScript property access `j.k`: a field lookup on an object,
`undefined` (modelled as `none`) on every other value. -/
def Json.get : Json → String → Option Json
  | .obj fields, k => List.lookup k fields
  | _, _ => none

/-- Truthiness of a possibly-`undefined` JavaScript value, as used in
`if (response.data.svg)`-style guards. -/
def optTruthy : Option Json → Bool
  | some j => j.truthy
  | none => false

/-- Truthiness of a possibly-`undefined` JavaScript string, as used in
`if (imageToken)`-style guards on header values. -/
def strTruthy : Option String → Bool
  | some s => s != ""
  | none => false

/-- JavaScript `a || b` on possibly-`undefined` strings: `a` when truthy,
otherwise `b`. -/
def jsOrS (a b : Option String) : Option String :=
  if strTruthy a then a else b

/-- JavaScript `a || b` on possibly-`undefined` values. -/
def jsOrJ (a b : Option Json) : Option Json :=
  if optTruthy a then a else b

/-- JavaScript `x || d` where `x` is a string-or-`undefined` header value and
`d` a string default, as in `response.headers['content-type'] || 'image/svg+xml'`. -/
def headerOr (o : Option String) (d : String) : String :=
  match o with
  | some s => if s = "" then d else s
  | none => d

mutual

/-- JavaScript string conversion (`String(v)` / `v.toString()` where defined):
strings unchanged, numbers printed, booleans `true`/`false`, arrays joined by
commas with null elements blank, plain objects `[object Object]`. -/
def jsToString : Json → String
  | .null => "null"
  | .bool b => if b then "true" else "false"
  | .num n => toString n
  | .str s => s
  | .arr elems => String.intercalate "," (jsArrParts elems)
  | .obj _ => "[object Object]"

/-- Elementwise stringification used by the JavaScript array `join`. -/
def jsArrParts : List Json → List String
  | [] => []
  | .null :: rest => "" :: jsArrParts rest
  | j :: rest => jsToString j :: jsArrParts rest

end

/-- The JavaScript method call `v.toString()`: behaves like `jsToString`
except that it throws (here `none`) on `null`. -/
def jsToStringMethod : Json → Option String
  | .null => none
  | j => some (jsToString j)

/-- Helper for `strIncludes`: does `pat` occur as a contiguous run of `l`? -/
def listInfix (pat : List Char) : List Char → Bool
  | [] => pat.isEmpty
  | c :: rest => pat.isPrefixOf (c :: rest) || listInfix pat rest

/-- JavaScript `s.includes(pat)` on strings, as in
`response.headers['content-type'].includes('application/json')`. -/
def strIncludes (s pat : String) : Bool :=
  listInfix pat.data s.data

/-- Value of a base64 alphabet character; characters outside the alphabet
(including `=` padding and whitespace) are skipped by Node's lenient
decoder. -/
def base64Index (c : Char) : Option Nat :=
  if 'A' ≤ c ∧ c ≤ 'Z' then some (c.toNat - 65)
  else if 'a' ≤ c ∧ c ≤ 'z' then some (c.toNat - 97 + 26)
  else if '0' ≤ c ∧ c ≤ '9' then some (c.toNat - 48 + 52)
  else if c = '+' then some 62
  else if c = '/' then some 63
  else none

/-- Turn a stream of base64 sextets into bytes.  The first argument is the
position (0..3) within the current 4-sextet group, the second the previous
sextet: each group of four sextets yields three bytes, a trailing group of
two or three sextets yields one or two bytes. -/
def b64Step : Nat → Nat → List Nat → List Nat
  | _, _, [] => []
  | 0, _, s :: rest => b64Step 1 s rest
  | 1, c, s :: rest => (c * 4 + s / 16) :: b64Step 2 s rest
  | 2, c, s :: rest => ((c % 16) * 16 + s / 4) :: b64Step 3 s rest
  | _, c, s :: rest => ((c % 4) * 64 + s) :: b64Step 0 s rest

/-- Node `Buffer.from(s, 'base64')`: decode the base64 alphabet characters of
`s` into bytes. -/
def base64Decode (s : String) : List Nat :=
  b64Step 0 0 (s.data.filterMap base64Index)

/-- UTF-8 encoding of one character as bytes. -/
def utf8EncodeCharNat (c : Char) : List Nat :=
  let n := c.toNat
  if n < 0x80 then [n]
  else if n < 0x800 then [0xC0 + n / 0x40, 0x80 + n % 0x40]
  else if n < 0x10000 then [0xE0 + n / 0x1000, 0x80 + (n / 0x40) % 0x40, 0x80 + n % 0x40]
  else [0xF0 + n / 0x40000, 0x80 + (n / 0x1000) % 0x40, 0x80 + (n / 0x40) % 0x40, 0x80 + n % 0x40]

/-- Node `Buffer.from(s)` on a string: its UTF-8 bytes. -/
def strBytes (s : String) : List Nat :=
  s.data.flatMap utf8EncodeCharNat

/-- The body value handed to `res.send`: a Node `Buffer` of bytes, or any
other JavaScript value (string, object, ...). -/
inductive SendData where
  | buf (bytes : List Nat)
  | jval (j : Json)

/-- The raw upstream HTTP response as axios presents it: status code, header
mapping (axios delivers header names lower-cased, but the handler code does
exact-key object accesses, modelled by `List.lookup`), and the decoded body. -/
structure UpstreamResponse where
  status : Nat
  headers : List (String × String)
  data : Json

/-- The outbound response the relay emits: status, headers in the order the
handler sets them, and the body value passed to `res.send`. -/
structure OutResponse where
  status : Nat
  headers : List (String × String)
  body : SendData

/-- Outcome of the awaited axios call: a 2xx response, an HTTP error (axios
rejects with `error.response` set and a message such as
`Request failed with status code 402`), or a transport failure with no
response at all. -/
inductive UpstreamOutcome where
  | success (resp : UpstreamResponse)
  | httpError (resp : UpstreamResponse) (errMessage : String)
  | transport (errMessage : String)

/-- The `cors({...})` middleware options object. -/
structure CorsOptions where
  origin : String
  methods : List String
  allowedHeaders : List String
  exposedHeaders : List String

/-- src/server.js lines 15-20: CORS options; `exposedHeaders` lists the token
header twice (two case-spellings) and no editor-URL header. -/
def serverJsCorsOptions : CorsOptions :=
  { origin := "*"
    methods := ["GET", "POST", "OPTIONS"]
    allowedHeaders := ["Content-Type", "Authorization"]
    exposedHeaders := ["X-Image-Token", "x-image-token"] }

/-- src/unnamed/part_001 lines 15-20: CORS options of the variant handler,
exposing both the token and the editor-URL headers. -/
def part1CorsOptions : CorsOptions :=
  { origin := "*"
    methods := ["GET", "POST", "OPTIONS"]
    allowedHeaders := ["Content-Type", "Authorization"]
    exposedHeaders := ["X-Image-Token", "X-Editor-URL"] }

/-- An uploaded file as multer's memory storage presents it
(`req.file.originalname`, `req.file.mimetype`, `req.file.buffer`). -/
structure UploadedFile where
  originalname : String
  mimetype : String
  content : List Nat

/-- An inbound POST /vectorize request after multipart parsing: the file part
under field name `image` (if any) and the text fields (`req.body`). -/
structure InboundVectorize where
  imageFile : Option UploadedFile
  params : List (String × String)

/-- src/server.js lines 43-48: `limits.fileSize = 10 * 1024 * 1024`. -/
def fileSizeLimit : Nat := 10 * 1024 * 1024

/-- A field of the outbound multipart body built with `form-data`:
the file part or an appended string value. -/
inductive FormValue where
  | file (content : List Nat) (filename : String) (contentType : String)
  | str (s : String)

/-- One `if (req.body[k]) formData.append(k, req.body[k])` step of the
handler: the field is appended only when present with a truthy
(non-empty) string value. -/
def appendParam (body : List (String × String)) (k : String) : List (String × FormValue) :=
  match List.lookup k body with
  | some v => if v = "" then [] else [(k, FormValue.str v)]
  | none => []

/-- src/server.js lines 67-84: the five whitelisted optional parameters,
copied in this order. -/
def paramFields (body : List (String × String)) : List (String × FormValue) :=
  appendParam body "mode"
    ++ appendParam body "processing.max_colors"
    ++ appendParam body "output.group_by_color"
    ++ appendParam body "output.illustrator_compatibility"
    ++ appendParam body "policy.retention_days"

/-- The whitelist of optional parameter names the handler recognizes. -/
def optionalParamKeys : List String :=
  ["mode", "processing.max_colors", "output.group_by_color",
   "output.illustrator_compatibility", "policy.retention_days"]

/-- src/server.js lines 61-84: the outbound multipart body — the image part
(buffer, original filename, original content type) followed by the
whitelisted optional parameters present in `req.body`. -/
def buildFormData (f : UploadedFile) (body : List (String × String)) :
    List (String × FormValue) :=
  ("image", FormValue.file f.content f.originalname f.mimetype) :: paramFields body

/-- What happens to an inbound request before any upstream traffic: either a
response is emitted without contacting the upstream, or the upstream call is
issued with the given multipart body. -/
inductive PreUpstream where
  | reject (r : OutResponse)
  | callUpstream (formData : List (String × FormValue))

/-- src/server.js lines 184-191: the final error-handling middleware,
answering 500 with `error` and `message` fields for any error passed to
`next`, including multer limit errors. -/
def errorMiddleware (errMessage : String) : OutResponse :=
  { status := 500
    headers := []
    body := .jval (.obj [("error", .str "Internal server error"),
                         ("message", .str errMessage)]) }

/-- The inbound stage of POST /vectorize: multer aborts with a
`LIMIT_FILE_SIZE` MulterError (message `File too large`) when the image part
exceeds `limits.fileSize`, which the error middleware answers with 500; the
handler itself answers 400 `{error}` when no file was supplied (lines 53-55);
otherwise the multipart body is built and the upstream call issued. -/
def vectorizePre (req : InboundVectorize) : PreUpstream :=
  match req.imageFile with
  | some f =>
    if f.content.length > fileSizeLimit then
      .reject (errorMiddleware "File too large")
    else
      .callUpstream (buildFormData f req.params)
  | none =>
    .reject { status := 400
              headers := []
              body := .jval (.obj [("error", .str "No image file provided")]) }

/-- src/server.js line 108: the JSON-envelope test
`response.headers['content-type'] && response.headers['content-type'].includes('application/json')`. -/
def isJsonResponse (resp : UpstreamResponse) : Bool :=
  match List.lookup "content-type" resp.headers with
  | some s => strIncludes s "application/json"
  | none => false

/-- src/server.js lines 110-115: `editorUrl` is set (and later forwarded)
only in the JSON branch and only when `response.data.editor_url` is truthy. -/
def serverJsEditorUrl (resp : UpstreamResponse) : Option Json :=
  if isJsonResponse resp then
    if optTruthy (resp.data.get "editor_url") then resp.data.get "editor_url" else none
  else none

/-- src/server.js lines 117-122: payload extraction from the JSON envelope.
`imageData` starts as the whole `response.data`; a truthy `data` field is
base64-decoded (`Buffer.from(.., 'base64')` throws on the value kinds a JSON
body can carry other than strings — numbers, objects, booleans, null; array
bodies are not modelled), otherwise a truthy `svg` field is used, otherwise
the whole JSON value is kept. -/
def serverJsJsonPayload (j : Json) : Except String SendData :=
  if optTruthy (j.get "data") then
    match j.get "data" with
    | some (.str s) => .ok (.buf (base64Decode s))
    | _ => .error "The first argument must be of type string or an instance of Buffer, ArrayBuffer, or Array or an Array-like Object."
  else if optTruthy (j.get "svg") then
    .ok (.jval ((j.get "svg").getD .null))
  else
    .ok (.jval j)

/-- src/server.js line 124: the non-JSON branch `Buffer.from(response.data)`;
axios hands the body over as a string when it is not parsed JSON, and
`Buffer.from` throws on non-string objects. -/
def serverJsBinaryPayload (j : Json) : Except String SendData :=
  match j with
  | .str s => .ok (.buf (strBytes s))
  | _ => .error "The first argument must be of type string or an instance of Buffer, ArrayBuffer, or Array or an Array-like Object."

/-- JavaScript `if (x) { use x }` on a possibly-`undefined` string: the value
survives only when truthy. -/
def jsTruthyFilter (o : Option String) : Option String :=
  if strTruthy o then o else none

/-- src/server.js lines 133-140: the token header chain
`response.headers['x-image-token'] || response.headers['X-Image-Token'] || response.headers['X-IMAGE-TOKEN']`,
guarded by `if (imageToken)`. -/
def serverJsImageToken (headers : List (String × String)) : Option String :=
  jsTruthyFilter (jsOrS (jsOrS (List.lookup "x-image-token" headers)
                               (List.lookup "X-Image-Token" headers))
                        (List.lookup "X-IMAGE-TOKEN" headers))

/-- src/server.js lines 126-150: the headers set on a successful outbound
response, in the order `res.set` places them: Content-Type (upstream value or
`image/svg+xml` default), `Cache-Control: no-store`, then the token header if
one was found, then the editor URL if one was found (express stringifies
non-string header values). -/
def serverJsHeaders (resp : UpstreamResponse) : List (String × String) :=
  [("Content-Type", headerOr (List.lookup "content-type" resp.headers) "image/svg+xml"),
   ("Cache-Control", "no-store")]
  ++ (match serverJsImageToken resp.headers with
      | some t => [("X-Image-Token", t)]
      | none => [])
  ++ (match serverJsEditorUrl resp with
      | some v => [("X-Editor-URL", jsToString v)]
      | none => [])

/-- src/server.js lines 104-152: the whole success path of the vectorize
handler after the upstream call resolves.  A thrown `Buffer.from` error
propagates as `Except.error` into the catch block. -/
def serverJsSuccess (resp : UpstreamResponse) : Except String OutResponse :=
  match (if isJsonResponse resp then serverJsJsonPayload resp.data
         else serverJsBinaryPayload resp.data) with
  | .error m => .error m
  | .ok payload =>
    .ok { status := 200, headers := serverJsHeaders resp, body := payload }

/-- src/server.js lines 162-167: the catch branch for an upstream HTTP error:
mirror the upstream status and relay
`error.response.data.toString() || error.message`.  `.toString()` throws on a
null body (no response is produced then). -/
def serverJsHttpError (resp : UpstreamResponse) (errMessage : String) : Option OutResponse :=
  match jsToStringMethod resp.data with
  | none => none
  | some s =>
    some { status := resp.status
           headers := []
           body := .jval (.obj [("error", .str "Vectorizer.ai API error"),
                                ("message", .str (if s = "" then errMessage else s)),
                                ("status", .num (Int.ofNat resp.status))]) }

/-- src/server.js lines 168-172: the catch branch when no upstream response
was received (transport failure, or an error thrown inside the try block). -/
def errorNoResponse (errMessage : String) : OutResponse :=
  { status := 500
    headers := []
    body := .jval (.obj [("error", .str "Internal server error"),
                         ("message", .str errMessage)]) }

/-- src/server.js: the outbound response as a function of the upstream
outcome (`none` when the handler itself crashes producing no response). -/
def serverJsAfterUpstream : UpstreamOutcome → Option OutResponse
  | .success resp =>
    match serverJsSuccess resp with
    | .ok r => some r
    | .error m => some (errorNoResponse m)
  | .httpError resp errMessage => serverJsHttpError resp errMessage
  | .transport errMessage => some (errorNoResponse errMessage)

/-- src/unnamed/part_001 line 104: the JSON-envelope test
`typeof response.data === 'object' && response.data !== null`
(objects and arrays pass, null is excluded). -/
def Json.isObjectLike : Json → Bool
  | .obj _ => true
  | .arr _ => true
  | _ => false

/-- JavaScript `if (x) use x` on a possibly-`undefined` value: keep only
truthy values. -/
def truthyOpt (o : Option Json) : Option Json :=
  if optTruthy o then o else none

/-- src/unnamed/part_001 lines 120-131: payload extraction of the variant
handler — `svg` field first, then base64 `data`, then
`response.data.result || response.data.output || response.data`. -/
def part1JsonPayload (j : Json) : Except String SendData :=
  if optTruthy (j.get "svg") then
    .ok (.jval ((j.get "svg").getD .null))
  else if optTruthy (j.get "data") then
    match j.get "data" with
    | some (.str s) => .ok (.buf (base64Decode s))
    | _ => .error "The first argument must be of type string or an instance of Buffer, ArrayBuffer, or Array or an Array-like Object."
  else
    .ok (.jval ((jsOrJ (jsOrJ (j.get "result") (j.get "output")) (some j)).getD .null))

/-- src/unnamed/part_001 lines 106-118 and 133-136: headers of the variant
handler's JSON branch, in `res.set` order — editor URL (when truthy), token
from the `vector_token` body field (when truthy), then the fixed
`image/svg+xml` content type and `no-store`. -/
def part1JsonHeaders (j : Json) : List (String × String) :=
  (match truthyOpt (j.get "editor_url") with
   | some v => [("X-Editor-URL", jsToString v)]
   | none => [])
  ++ (match truthyOpt (j.get "vector_token") with
      | some v => [("X-Image-Token", jsToString v)]
      | none => [])
  ++ [("Content-Type", "image/svg+xml"), ("Cache-Control", "no-store")]

/-- src/unnamed/part_001 lines 147-149: the variant handler's binary-branch
token chain checks two case-spellings. -/
def part1ImageToken (headers : List (String × String)) : Option String :=
  jsTruthyFilter (jsOrS (List.lookup "x-image-token" headers)
                        (List.lookup "X-Image-Token" headers))

/-- src/unnamed/part_001 lines 103-166: the success path of the variant
handler.  The binary branch sends `response.data` directly (no `Buffer.from`),
with the upstream content type or the `image/svg+xml` default. -/
def part1Success (resp : UpstreamResponse) : Except String OutResponse :=
  if resp.data.isObjectLike then
    match part1JsonPayload resp.data with
    | .error m => .error m
    | .ok payload =>
      .ok { status := 200, headers := part1JsonHeaders resp.data, body := payload }
  else
    .ok { status := 200
          headers := (match part1ImageToken resp.headers with
                      | some t => [("X-Image-Token", t)]
                      | none => [])
            ++ [("Content-Type", headerOr (List.lookup "content-type" resp.headers) "image/svg+xml"),
                ("Cache-Control", "no-store")]
          body := .jval resp.data }

/-- Number of outbound headers carrying a given header name. -/
def countHeader (hs : List (String × String)) (n : String) : Nat :=
  (hs.filter (fun p => p.fst == n)).length

/-- Claim C1 input: an upstream JSON envelope carrying an inline svg field
and declaring the JSON content type. -/
def c1resp : UpstreamResponse :=
  { status := 200
    headers := [("content-type", "application/json")]
    data := .obj [("svg", .str "<svg>A</svg>")] }

/-- Claim C1 witness input for the server.js clause. -/
def w1resp : UpstreamResponse :=
  { status := 200
    headers := [("content-type", "application/json; charset=utf-8")]
    data := .obj [("svg", .str "<svg/>")] }

/-- Claim C1 witness output for the server.js clause. -/
def w1out : OutResponse :=
  { status := 200
    headers := [("Content-Type", "application/json; charset=utf-8"),
                ("Cache-Control", "no-store")]
    body := .jval (.str "<svg/>") }

/-- Claim C1 witness input for the part_001 clause. -/
def w1part : UpstreamResponse :=
  { status := 200, headers := [], data := .obj [("svg", .str "<svg/>")] }

/-- Claim C1 witness output for the part_001 clause. -/
def w1partOut : OutResponse :=
  { status := 200
    headers := [("Content-Type", "image/svg+xml"), ("Cache-Control", "no-store")]
    body := .jval (.str "<svg/>") }

/-- Claim C2 input: a JSON envelope carrying both an inline `svg` field and a
base64 `data` field (`PHN2Zz5CPC9zdmc+` decodes to `<svg>B</svg>`). -/
def c2resp : UpstreamResponse :=
  { status := 200
    headers := [("content-type", "application/json")]
    data := .obj [("svg", .str "<svg>A</svg>"), ("data", .str "PHN2Zz5CPC9zdmc+")] }

/-- The bytes of `<svg>B</svg>`, the base64 decoding of the `data` field of
`c2resp`. -/
def c2decoded : List Nat := [60, 115, 118, 103, 62, 66, 60, 47, 115, 118, 103, 62]

/-- Claim C2 witness inputs. -/
def w2both : Json := .obj [("svg", .str "<svg>W</svg>"), ("data", .str "PHN2Zw==")]

/-- Claim C2 witness input with only an svg field. -/
def w2svg : Json := .obj [("svg", .str "<svg/>")]

/-- Claim C2 witness input with neither payload field. -/
def w2plain : Json := .obj [("other", .str "y")]

/-- Claim C3 input file: one byte over the 10 MiB limit. -/
def c3file : UploadedFile :=
  { originalname := "big.png"
    mimetype := "image/png"
    content := List.replicate (10 * 1024 * 1024 + 1) 0 }

/-- Claim C3 input: an upload one byte over the 10 MiB limit. -/
def c3req : InboundVectorize := { imageFile := some c3file, params := [] }

/-- Claim C3 witness input file: 11 MiB. -/
def w3file : UploadedFile :=
  { originalname := "huge.jpg"
    mimetype := "image/jpeg"
    content := List.replicate (11 * 1024 * 1024) 7 }

/-- Claim C3 witness input: an 11 MiB upload. -/
def w3req : InboundVectorize := { imageFile := some w3file, params := [] }

/-- Claim C4 witness input: an upstream 402 with a JSON error body. -/
def w4resp : UpstreamResponse :=
  { status := 402
    headers := [("content-type", "application/json")]
    data := .obj [("error", .str "Insufficient credits")] }

/-- Claim C5 input: a request without an image file. -/
def c5req : InboundVectorize := { imageFile := none, params := [] }

/-- The body of the missing-image response (src/server.js line 54). -/
def c5body : Json := .obj [("error", .str "No image file provided")]

/-- Claim C5 witness input. -/
def w5req : InboundVectorize := { imageFile := none, params := [("mode", "test")] }

/-- Claim C6 input: a JSON envelope carrying an editor URL. -/
def c6resp : UpstreamResponse :=
  { status := 200
    headers := [("content-type", "application/json")]
    data := .obj [("editor_url", .str "https://vectorizer.ai/edit/abc"),
                  ("svg", .str "<svg/>")] }

/-- Claim C7 input file. -/
def c7file : UploadedFile :=
  { originalname := "logo.png", mimetype := "image/png", content := [1, 2, 3] }

/-- Claim C7 witness file. -/
def w7file : UploadedFile :=
  { originalname := "icon.png", mimetype := "image/png", content := [9] }

/-- Claim C7 witness parameter mapping. -/
def w7body : List (String × String) := [("mode", "fill"), ("unrelated", "z")]

/-- Claim C8 input: a binary upstream response whose token header is present
with an empty value. -/
def c8resp : UpstreamResponse :=
  { status := 200
    headers := [("content-type", "image/svg+xml"), ("x-image-token", "")]
    data := .str "<svg/>" }

/-- Claim C8 witness input with a non-empty token header. -/
def w8resp : UpstreamResponse :=
  { status := 200
    headers := [("content-type", "image/svg+xml"), ("x-image-token", "tok-1")]
    data := .str "<svg/>" }

/-- Claim C8 witness output. -/
def w8out : OutResponse :=
  { status := 200
    headers := [("Content-Type", "image/svg+xml"), ("Cache-Control", "no-store"),
                ("X-Image-Token", "tok-1")]
    body := .buf (strBytes "<svg/>") }

/-- Claim C8 witness input without any token header. -/
def w8none : UpstreamResponse :=
  { status := 200, headers := [("content-type", "image/svg+xml")], data := .str "<svg/>" }

/-- Claim C8 witness output for the token-free input. -/
def w8noneOut : OutResponse :=
  { status := 200
    headers := [("Content-Type", "image/svg+xml"), ("Cache-Control", "no-store")]
    body := .buf (strBytes "<svg/>") }

/-- Claim C9 witness input, binary branch of src/server.js. -/
def w9resp : UpstreamResponse :=
  { status := 200, headers := [("content-type", "image/svg+xml")], data := .str "<svg>ok</svg>" }

/-- Claim C9 witness output, binary branch of src/server.js. -/
def w9out : OutResponse :=
  { status := 200
    headers := [("Content-Type", "image/svg+xml"), ("Cache-Control", "no-store")]
    body := .buf (strBytes "<svg>ok</svg>") }

/-- Claim C9 witness input, JSON branch of part_001. -/
def w9respB : UpstreamResponse :=
  { status := 200, headers := [], data := .obj [("svg", .str "<svg>ok</svg>")] }

/-- Claim C9 witness output, JSON branch of part_001. -/
def w9outB : OutResponse :=
  { status := 200
    headers := [("Content-Type", "image/svg+xml"), ("Cache-Control", "no-store")]
    body := .jval (.str "<svg>ok</svg>") }

/-- Claim C10 input: a JSON envelope whose headers carry an empty
`x-image-token`. -/
def c10resp : UpstreamResponse :=
  { status := 200
    headers := [("content-type", "application/json"), ("x-image-token", "")]
    data := .obj [("svg", .str "<svg/>")] }

/-- Claim C10 witness input: a JSON envelope with a non-empty token header. -/
def w10resp : UpstreamResponse :=
  { status := 200
    headers := [("content-type", "application/json"), ("x-image-token", "tok-2")]
    data := .obj [("svg", .str "<svg/>")] }

/-- Claim C10 witness output. -/
def w10out : OutResponse :=
  { status := 200
    headers := [("Content-Type", "application/json"), ("Cache-Control", "no-store"),
                ("X-Image-Token", "tok-2")]
    body := .jval (.str "<svg/>") }

/-! ## Helper lemmas -/

/-- Key lookup distributes over list append. -/
theorem lookup_append {β : Type} (k : String) (xs ys : List (String × β)) :
    List.lookup k (xs ++ ys) = (match List.lookup k xs with
      | some v => some v
      | none => List.lookup k ys) := by
  induction xs with
  | nil => simp [List.lookup]
  | cons p t ih =>
    obtain ⟨a, b⟩ := p
    by_cases h : (k == a) = true <;> simp [List.lookup, h, ih]

/-- Looking up a key in its own `appendParam` segment. -/
theorem appendParam_self (body : List (String × String)) (k : String) :
    List.lookup k (appendParam body k) = (match List.lookup k body with
      | some v => if v = "" then none else some (FormValue.str v)
      | none => none) := by
  unfold appendParam
  cases h : List.lookup k body with
  | none => simp
  | some v => by_cases hv : v = "" <;> simp [hv, List.lookup]

/-- Looking up a key in another key's `appendParam` segment finds nothing. -/
theorem appendParam_ne (body : List (String × String)) (k j : String)
    (h : (k == j) = false) :
    List.lookup k (appendParam body j) = none := by
  unfold appendParam
  cases List.lookup j body with
  | none => simp
  | some v => by_cases hv : v = "" <;> simp [hv, List.lookup, h]

/-- A foreign `appendParam` segment can be skipped during lookup. -/
theorem lookup_skipParam (body : List (String × String)) (k j : String)
    (h : (k == j) = false) (rest : List (String × FormValue)) :
    List.lookup k (appendParam body j ++ rest) = List.lookup k rest := by
  rw [lookup_append, appendParam_ne body k j h]

/-- A truthy left operand wins a JavaScript `||`. -/
theorem jsOrS_of_truthy (a b : Option String) (h : strTruthy a = true) :
    jsOrS a b = a := by
  simp [jsOrS, h]

/-- A falsy left operand loses a JavaScript `||`. -/
theorem jsOrS_of_falsy (a b : Option String) (h : strTruthy a = false) :
    jsOrS a b = b := by
  simp [jsOrS, h]

/-- A non-empty string survives the truthiness guard. -/
theorem jsTruthyFilter_some (s : String) (h : (s != "") = true) :
    jsTruthyFilter (some s) = some s := by
  simp [jsTruthyFilter, strTruthy, h]

/-- A falsy value is dropped by the truthiness guard. -/
theorem jsTruthyFilter_falsy (o : Option String) (h : strTruthy o = false) :
    jsTruthyFilter o = none := by
  simp [jsTruthyFilter, h]

/-- Characterization of the outbound multipart fields for whitelisted keys:
present non-empty inbound values are copied verbatim, absent or empty values
produce no field. -/
theorem paramFields_lookup (body : List (String × String)) (k : String)
    (hk : k ∈ optionalParamKeys) :
    List.lookup k (paramFields body) = (match List.lookup k body with
      | some v => if v = "" then none else some (FormValue.str v)
      | none => none) := by
  unfold paramFields
  simp only [optionalParamKeys, List.mem_cons, List.not_mem_nil, or_false] at hk
  simp only [List.append_assoc]
  rcases hk with rfl | rfl | rfl | rfl | rfl
  · have hrest : List.lookup "mode"
        (appendParam body "processing.max_colors" ++ (appendParam body "output.group_by_color"
          ++ (appendParam body "output.illustrator_compatibility"
            ++ appendParam body "policy.retention_days"))) = none := by
      rw [lookup_skipParam body _ _ (by decide), lookup_skipParam body _ _ (by decide),
          lookup_skipParam body _ _ (by decide), appendParam_ne body _ _ (by decide)]
    rw [lookup_append, appendParam_self]
    cases hb : List.lookup "mode" body with
    | none => simp [hrest]
    | some v => by_cases hv : v = "" <;> simp [hv, hrest]
  · have hrest : List.lookup "processing.max_colors"
        (appendParam body "output.group_by_color"
          ++ (appendParam body "output.illustrator_compatibility"
            ++ appendParam body "policy.retention_days")) = none := by
      rw [lookup_skipParam body _ _ (by decide), lookup_skipParam body _ _ (by decide),
          appendParam_ne body _ _ (by decide)]
    rw [lookup_skipParam body _ _ (by decide), lookup_append, appendParam_self]
    cases hb : List.lookup "processing.max_colors" body with
    | none => simp [hrest]
    | some v => by_cases hv : v = "" <;> simp [hv, hrest]
  · have hrest : List.lookup "output.group_by_color"
        (appendParam body "output.illustrator_compatibility"
          ++ appendParam body "policy.retention_days") = none := by
      rw [lookup_skipParam body _ _ (by decide), appendParam_ne body _ _ (by decide)]
    rw [lookup_skipParam body _ _ (by decide), lookup_skipParam body _ _ (by decide),
        lookup_append, appendParam_self]
    cases hb : List.lookup "output.group_by_color" body with
    | none => simp [hrest]
    | some v => by_cases hv : v = "" <;> simp [hv, hrest]
  · have hrest : List.lookup "output.illustrator_compatibility"
        (appendParam body "policy.retention_days") = none :=
      appendParam_ne body _ _ (by decide)
    rw [lookup_skipParam body _ _ (by decide), lookup_skipParam body _ _ (by decide),
        lookup_skipParam body _ _ (by decide), lookup_append, appendParam_self]
    cases hb : List.lookup "output.illustrator_compatibility" body with
    | none => simp [hrest]
    | some v => by_cases hv : v = "" <;> simp [hv, hrest]
  · rw [lookup_skipParam body _ _ (by decide), lookup_skipParam body _ _ (by decide),
        lookup_skipParam body _ _ (by decide), lookup_skipParam body _ _ (by decide),
        appendParam_self]

/-- The full multipart body behaves like `paramFields` on whitelisted keys
(none of which is the image field name). -/
theorem buildFormData_lookup (f : UploadedFile) (body : List (String × String))
    (k : String) (hk : k ∈ optionalParamKeys) :
    List.lookup k (buildFormData f body) = (match List.lookup k body with
      | some v => if v = "" then none else some (FormValue.str v)
      | none => none) := by
  have hki : (k == "image") = false := by
    simp only [optionalParamKeys, List.mem_cons, List.not_mem_nil, or_false] at hk
    rcases hk with rfl | rfl | rfl | rfl | rfl <;> decide
  rw [show buildFormData f body
      = ("image", FormValue.file f.content f.originalname f.mimetype) :: paramFields body
      from rfl]
  simp [List.lookup, hki, paramFields_lookup body k hk]

/-- Inversion for the success path of src/server.js: a produced response has
status 200 and exactly the headers of `serverJsHeaders`. -/
theorem serverJsSuccess_ok (resp : UpstreamResponse) (r : OutResponse)
    (h : serverJsSuccess resp = .ok r) :
    r.status = 200 ∧ r.headers = serverJsHeaders resp := by
  unfold serverJsSuccess at h
  cases hp : (if isJsonResponse resp then serverJsJsonPayload resp.data
              else serverJsBinaryPayload resp.data) with
  | error m => rw [hp] at h; cases h
  | ok p =>
    rw [hp] at h
    cases h
    exact ⟨rfl, rfl⟩

/-- Inversion for the JSON branch of the part_001 handler. -/
theorem part1Success_ok_json (resp : UpstreamResponse) (r : OutResponse)
    (hobj : resp.data.isObjectLike = true) (h : part1Success resp = .ok r) :
    r.status = 200 ∧ r.headers = part1JsonHeaders resp.data := by
  unfold part1Success at h
  rw [hobj] at h
  simp only [if_true] at h
  cases hp : part1JsonPayload resp.data with
  | error m => rw [hp] at h; cases h
  | ok p =>
    rw [hp] at h
    cases h
    exact ⟨rfl, rfl⟩

/-! ## Claims -/

/-- Claim C1, counterexample: for the JSON-envelope upstream response
`c1resp` (declared content-type `application/json`, inline svg payload),
src/server.js emits outbound `Content-Type: application/json`, not the fixed
vector MIME type `image/svg+xml`. -/
theorem C1_counterexample :
    isJsonResponse c1resp = true
    ∧ (serverJsAfterUpstream (.success c1resp)).map
        (fun r => List.lookup "Content-Type" r.headers) = some (some "application/json")
    ∧ (("application/json" : String) == "image/svg+xml") = false :=
  ⟨rfl, rfl, by decide⟩

/-- Claim C1, amended: for an upstream response treated as a JSON envelope,
src/server.js emits the upstream-declared content-type verbatim on the
outbound response, while the part_001 variant of the handler does fix the
outbound content-type to `image/svg+xml`. -/
theorem C1_content_type :
    (∀ (resp : UpstreamResponse) (s : String) (r : OutResponse),
        List.lookup "content-type" resp.headers = some s →
        strIncludes s "application/json" = true →
        serverJsSuccess resp = .ok r →
        List.lookup "Content-Type" r.headers = some s)
    ∧ (∀ (resp : UpstreamResponse) (r : OutResponse),
        resp.data.isObjectLike = true →
        part1Success resp = .ok r →
        List.lookup "Content-Type" r.headers = some "image/svg+xml") := by
  constructor
  · intro resp s r h1 h2 h3
    obtain ⟨-, hh⟩ := serverJsSuccess_ok resp r h3
    have hne : s ≠ "" := by
      intro he
      subst he
      rw [show strIncludes "" "application/json" = false from rfl] at h2
      cases h2
    rw [hh]
    simp [serverJsHeaders, List.lookup, headerOr, h1, hne]
  · intro resp r hobj h
    obtain ⟨-, hh⟩ := part1Success_ok_json resp r hobj h
    rw [hh]
    cases he : truthyOpt (resp.data.get "editor_url") <;>
      cases ht : truthyOpt (resp.data.get "vector_token") <;>
      simp [part1JsonHeaders, he, ht, List.lookup]

/-- Claim C1 witness: both clauses at concrete inputs. -/
theorem C1_content_type_witness :
    List.lookup "Content-Type" w1out.headers = some "application/json; charset=utf-8"
    ∧ List.lookup "Content-Type" w1partOut.headers = some "image/svg+xml" :=
  ⟨C1_content_type.1 w1resp "application/json; charset=utf-8" w1out rfl (by decide) rfl,
   C1_content_type.2 w1part w1partOut rfl rfl⟩

/-- Claim C2, counterexample: on a JSON envelope carrying both an inline
`svg` field and a base64 `data` field, src/server.js sends the decoded
`data` bytes, not the svg markup the claimed svg-first precedence would
pick; the part_001 variant picks the svg field. -/
theorem C2_counterexample :
    serverJsJsonPayload c2resp.data = .ok (.buf c2decoded)
    ∧ part1JsonPayload c2resp.data = .ok (.jval (.str "<svg>A</svg>"))
    ∧ (c2decoded == strBytes "<svg>A</svg>") = false :=
  ⟨rfl, rfl, by decide⟩

/-- Claim C2, amended: src/server.js extracts the JSON-envelope payload by
checking the base64 `data` field first, then the inline `svg` field, and
falls back to the whole JSON value without error; the part_001 variant
checks `svg` first. -/
theorem C2_payload_precedence :
    (∀ (j : Json) (s : String), j.get "data" = some (.str s) → s ≠ "" →
        serverJsJsonPayload j = .ok (.buf (base64Decode s)))
    ∧ (∀ (j v : Json), optTruthy (j.get "data") = false →
        j.get "svg" = some v → v.truthy = true →
        serverJsJsonPayload j = .ok (.jval v))
    ∧ (∀ j : Json, optTruthy (j.get "data") = false → optTruthy (j.get "svg") = false →
        serverJsJsonPayload j = .ok (.jval j))
    ∧ (∀ (j v : Json), j.get "svg" = some v → v.truthy = true →
        part1JsonPayload j = .ok (.jval v)) := by
  refine ⟨?_, ?_, ?_, ?_⟩
  · intro j s h hs
    have hb : (s != "") = true := bne_iff_ne.mpr hs
    simp [serverJsJsonPayload, h, optTruthy, Json.truthy, hb]
  · intro j v hd hv ht
    unfold serverJsJsonPayload
    rw [hd]
    simp [hv, optTruthy, ht]
  · intro j hd hs
    unfold serverJsJsonPayload
    rw [hd, hs]
    simp
  · intro j v hv ht
    unfold part1JsonPayload
    rw [hv]
    simp [optTruthy, ht]

/-- Claim C2 witness: all four clauses at concrete envelopes. -/
theorem C2_payload_precedence_witness :
    serverJsJsonPayload w2both = .ok (.buf (base64Decode "PHN2Zw=="))
    ∧ serverJsJsonPayload w2svg = .ok (.jval (.str "<svg/>"))
    ∧ serverJsJsonPayload w2plain = .ok (.jval w2plain)
    ∧ part1JsonPayload w2both = .ok (.jval (.str "<svg>W</svg>")) :=
  ⟨C2_payload_precedence.1 w2both "PHN2Zw==" rfl (by decide),
   C2_payload_precedence.2.1 w2svg (.str "<svg/>") rfl rfl rfl,
   C2_payload_precedence.2.2.1 w2plain rfl rfl,
   C2_payload_precedence.2.2.2 w2both (.str "<svg>W</svg>") rfl rfl⟩

/-- Claim C3, counterexample: an upload one byte over the 10 MiB limit is
rejected before any upstream call, but by the generic error middleware with
status 500, not a 4xx client error. -/
theorem C3_counterexample :
    vectorizePre c3req = .reject (errorMiddleware "File too large")
    ∧ (errorMiddleware "File too large").status = 500 := by
  refine ⟨?_, rfl⟩
  have hsz : c3file.content.length > fileSizeLimit := by
    rw [show c3file.content = List.replicate (10 * 1024 * 1024 + 1) 0 from rfl,
        List.length_replicate]
    norm_num [fileSizeLimit]
  unfold vectorizePre
  rw [show c3req.imageFile = some c3file from rfl]
  show (if c3file.content.length > fileSizeLimit
        then PreUpstream.reject (errorMiddleware "File too large")
        else PreUpstream.callUpstream (buildFormData c3file c3req.params)) = _
  rw [if_pos hsz]

/-- Claim C3, amended: every upload whose image part exceeds the 10 MiB
limit is rejected before translation or any upstream call, with the error
middleware's 500 `{error, message}` response (multer's `File too large`). -/
theorem C3_size_limit :
    ∀ (req : InboundVectorize) (f : UploadedFile),
      req.imageFile = some f → f.content.length > fileSizeLimit →
      vectorizePre req = .reject (errorMiddleware "File too large")
      ∧ (errorMiddleware "File too large").status = 500 := by
  intro req f hf hsz
  refine ⟨?_, rfl⟩
  unfold vectorizePre
  rw [hf]
  show (if f.content.length > fileSizeLimit
        then PreUpstream.reject (errorMiddleware "File too large")
        else PreUpstream.callUpstream (buildFormData f req.params)) = _
  rw [if_pos hsz]

/-- Claim C3 witness: the 11 MiB upload `w3req`. -/
theorem C3_size_limit_witness :
    vectorizePre w3req = .reject (errorMiddleware "File too large")
    ∧ (errorMiddleware "File too large").status = 500 :=
  C3_size_limit w3req w3file rfl (by
    rw [show w3file.content = List.replicate (11 * 1024 * 1024) 7 from rfl,
        List.length_replicate]
    norm_num [fileSizeLimit])

/-- Claim C4: an upstream HTTP error with a JSON (object) error body is
relayed with the upstream's status code and a JSON body with fields `error`,
`message` (the upstream body stringified — JavaScript `.toString()` renders
an object as `[object Object]`) and `status`; a transport failure with no
upstream response yields a generic 500 with `error` and `message` fields. -/
theorem C4_error_relay :
    (∀ (resp : UpstreamResponse) (errMessage : String) (fields : List (String × Json)),
        resp.data = .obj fields →
        serverJsAfterUpstream (.httpError resp errMessage)
          = some { status := resp.status
                   headers := []
                   body := .jval (.obj [("error", .str "Vectorizer.ai API error"),
                                        ("message", .str (jsToString resp.data)),
                                        ("status", .num (Int.ofNat resp.status))]) }
        ∧ jsToString resp.data = "[object Object]")
    ∧ (∀ errMessage : String,
        serverJsAfterUpstream (.transport errMessage)
          = some { status := 500
                   headers := []
                   body := .jval (.obj [("error", .str "Internal server error"),
                                        ("message", .str errMessage)]) }) := by
  constructor
  · intro resp errMessage fields h
    have hs : jsToString resp.data = "[object Object]" := by rw [h]; exact rfl
    refine ⟨?_, hs⟩
    show serverJsHttpError resp errMessage = _
    unfold serverJsHttpError
    rw [show jsToStringMethod resp.data = some (jsToString resp.data) from by
          rw [h]; exact rfl,
        hs]
    simp
  · intro errMessage
    rfl

/-- Claim C4 witness: a 402 with JSON error body, and a transport failure. -/
theorem C4_error_relay_witness :
    serverJsAfterUpstream (.httpError w4resp "Request failed with status code 402")
      = some { status := w4resp.status
               headers := []
               body := .jval (.obj [("error", .str "Vectorizer.ai API error"),
                                    ("message", .str (jsToString w4resp.data)),
                                    ("status", .num (Int.ofNat w4resp.status))]) }
    ∧ serverJsAfterUpstream (.transport "socket hang up")
      = some { status := 500
               headers := []
               body := .jval (.obj [("error", .str "Internal server error"),
                                    ("message", .str "socket hang up")]) } :=
  ⟨(C4_error_relay.1 w4resp "Request failed with status code 402"
      [("error", Json.str "Insufficient credits")] rfl).1,
   C4_error_relay.2 "socket hang up"⟩

/-- Claim C5, counterexample: the missing-image response is 400 and no
upstream call is made, but its JSON body has only an `error` field — no
`message` field, contrary to the claim. -/
theorem C5_counterexample :
    vectorizePre c5req = .reject { status := 400, headers := [], body := .jval c5body }
    ∧ c5body.get "error" = some (.str "No image file provided")
    ∧ c5body.get "message" = none :=
  ⟨rfl, rfl, rfl⟩

/-- Claim C5, amended: every request without an image file is answered with
status 400 and a JSON body containing an `error` field (and no `message`
field), and no upstream request is issued. -/
theorem C5_missing_image :
    ∀ req : InboundVectorize, req.imageFile = none →
      vectorizePre req = .reject { status := 400, headers := [], body := .jval c5body }
      ∧ (∀ fd, vectorizePre req ≠ .callUpstream fd)
      ∧ c5body.get "error" = some (.str "No image file provided")
      ∧ c5body.get "message" = none := by
  intro req h
  have hv : vectorizePre req
      = .reject { status := 400, headers := [], body := .jval c5body } := by
    unfold vectorizePre
    rw [h]
    exact rfl
  refine ⟨hv, ?_, rfl, rfl⟩
  intro fd hc
  rw [hv] at hc
  cases hc

/-- Claim C5 witness. -/
theorem C5_missing_image_witness :
    vectorizePre w5req = .reject { status := 400, headers := [], body := .jval c5body }
    ∧ c5body.get "message" = none :=
  ⟨(C5_missing_image w5req rfl).1, (C5_missing_image w5req rfl).2.2.2⟩

/-- Claim C6 (code bug): the src/server.js CORS configuration does not
expose `X-Editor-URL` (only the token header, twice), even though the very
same handler sets an `X-Editor-URL` response header for the browser client;
the part_001 variant exposes both headers as the claim states. -/
theorem C6_cors_exposed_headers :
    (serverJsCorsOptions.exposedHeaders.contains "X-Editor-URL") = false
    ∧ (serverJsCorsOptions.exposedHeaders.contains "X-Image-Token") = true
    ∧ (part1CorsOptions.exposedHeaders.contains "X-Editor-URL") = true
    ∧ (part1CorsOptions.exposedHeaders.contains "X-Image-Token") = true
    ∧ (serverJsAfterUpstream (.success c6resp)).map
        (fun r => List.lookup "X-Editor-URL" r.headers)
      = some (some "https://vectorizer.ai/edit/abc") :=
  ⟨by decide, by decide, by decide, by decide, rfl⟩

/-- Claim C7, counterexample: the whitelisted key `mode` present in the
inbound mapping with the empty-string value is dropped from the outbound
multipart body (the handler guards each copy with JavaScript truthiness). -/
theorem C7_counterexample :
    List.lookup "mode" [("mode", "")] = some ""
    ∧ List.lookup "mode" (buildFormData c7file [("mode", "")]) = none :=
  ⟨rfl, rfl⟩

/-- Claim C7, amended: every whitelisted key present in the inbound mapping
with a non-empty value is copied verbatim into the outbound multipart body
under the same name; keys absent from the mapping — and keys present with
the empty-string value, which JavaScript truthiness drops — produce no
outbound field. -/
theorem C7_whitelist_copy :
    (∀ (f : UploadedFile) (body : List (String × String)) (k v : String),
        k ∈ optionalParamKeys → List.lookup k body = some v → v ≠ "" →
        List.lookup k (buildFormData f body) = some (FormValue.str v))
    ∧ (∀ (f : UploadedFile) (body : List (String × String)) (k : String),
        k ∈ optionalParamKeys → List.lookup k body = none →
        List.lookup k (buildFormData f body) = none)
    ∧ (∀ (f : UploadedFile) (body : List (String × String)) (k : String),
        k ∈ optionalParamKeys → List.lookup k body = some "" →
        List.lookup k (buildFormData f body) = none) := by
  refine ⟨?_, ?_, ?_⟩
  · intro f body k v hk hb hv
    rw [buildFormData_lookup f body k hk, hb]
    simp [hv]
  · intro f body k hk hb
    rw [buildFormData_lookup f body k hk, hb]
  · intro f body k hk hb
    rw [buildFormData_lookup f body k hk, hb]
    simp

/-- Claim C7 witness: all three clauses at concrete inputs. -/
theorem C7_whitelist_copy_witness :
    List.lookup "mode" (buildFormData w7file w7body) = some (FormValue.str "fill")
    ∧ List.lookup "policy.retention_days" (buildFormData w7file w7body) = none
    ∧ List.lookup "output.group_by_color"
        (buildFormData w7file [("output.group_by_color", "")]) = none :=
  ⟨C7_whitelist_copy.1 w7file w7body "mode" "fill" (by decide) rfl (by decide),
   C7_whitelist_copy.2.1 w7file w7body "policy.retention_days" (by decide) rfl,
   C7_whitelist_copy.2.2 w7file [("output.group_by_color", "")]
     "output.group_by_color" (by decide) rfl⟩

/-- Claim C8, counterexample: a binary upstream response whose header mapping
contains `x-image-token` bound to the empty string yields an outbound
response with no `X-Image-Token` header at all — the `||` chain skips falsy
values — contradicting the claim that the first matching header's value is
always forwarded. -/
theorem C8_counterexample :
    List.lookup "x-image-token" c8resp.headers = some ""
    ∧ isJsonResponse c8resp = false
    ∧ (serverJsAfterUpstream (.success c8resp)).map
        (fun r => List.lookup "X-Image-Token" r.headers) = some none :=
  ⟨rfl, rfl, rfl⟩

/-- Claim C8, amended: for a binary (non-JSON) upstream response, the
outbound response carries exactly one `X-Image-Token` header whose value is
the first of the three case-spellings bound to a non-empty value; spellings
absent or bound to the empty string are skipped, and when no spelling has a
non-empty value no token header is emitted, without error. -/
theorem C8_token_forwarding :
    (∀ (resp : UpstreamResponse) (r : OutResponse) (s : String),
        isJsonResponse resp = false →
        List.lookup "x-image-token" resp.headers = some s → s ≠ "" →
        serverJsSuccess resp = .ok r →
        countHeader r.headers "X-Image-Token" = 1
        ∧ List.lookup "X-Image-Token" r.headers = some s)
    ∧ (∀ (resp : UpstreamResponse) (r : OutResponse) (s : String),
        isJsonResponse resp = false →
        strTruthy (List.lookup "x-image-token" resp.headers) = false →
        List.lookup "X-Image-Token" resp.headers = some s → s ≠ "" →
        serverJsSuccess resp = .ok r →
        countHeader r.headers "X-Image-Token" = 1
        ∧ List.lookup "X-Image-Token" r.headers = some s)
    ∧ (∀ (resp : UpstreamResponse) (r : OutResponse) (s : String),
        isJsonResponse resp = false →
        strTruthy (List.lookup "x-image-token" resp.headers) = false →
        strTruthy (List.lookup "X-Image-Token" resp.headers) = false →
        List.lookup "X-IMAGE-TOKEN" resp.headers = some s → s ≠ "" →
        serverJsSuccess resp = .ok r →
        countHeader r.headers "X-Image-Token" = 1
        ∧ List.lookup "X-Image-Token" r.headers = some s)
    ∧ (∀ (resp : UpstreamResponse) (r : OutResponse),
        isJsonResponse resp = false →
        strTruthy (List.lookup "x-image-token" resp.headers) = false →
        strTruthy (List.lookup "X-Image-Token" resp.headers) = false →
        strTruthy (List.lookup "X-IMAGE-TOKEN" resp.headers) = false →
        serverJsSuccess resp = .ok r →
        List.lookup "X-Image-Token" r.headers = none) := by
  refine ⟨?_, ?_, ?_, ?_⟩
  · intro resp r s hj h1 hne hok
    obtain ⟨-, hh⟩ := serverJsSuccess_ok resp r hok
    have hb : (s != "") = true := bne_iff_ne.mpr hne
    have hs1 : strTruthy (List.lookup "x-image-token" resp.headers) = true := by
      rw [h1]; exact hb
    have htok : serverJsImageToken resp.headers = some s := by
      unfold serverJsImageToken
      rw [jsOrS_of_truthy _ _ hs1, jsOrS_of_truthy _ _ hs1, h1]
      exact jsTruthyFilter_some s hb
    have he : serverJsEditorUrl resp = none := by
      simp [serverJsEditorUrl, hj]
    rw [hh]
    constructor
    · simp [countHeader, serverJsHeaders, htok, he]
    · simp [serverJsHeaders, htok, he, List.lookup]
  · intro resp r s hj h1 h2 hne hok
    obtain ⟨-, hh⟩ := serverJsSuccess_ok resp r hok
    have hb : (s != "") = true := bne_iff_ne.mpr hne
    have hs2 : strTruthy (List.lookup "X-Image-Token" resp.headers) = true := by
      rw [h2]; exact hb
    have htok : serverJsImageToken resp.headers = some s := by
      unfold serverJsImageToken
      rw [jsOrS_of_falsy _ _ h1, jsOrS_of_truthy _ _ hs2, h2]
      exact jsTruthyFilter_some s hb
    have he : serverJsEditorUrl resp = none := by
      simp [serverJsEditorUrl, hj]
    rw [hh]
    constructor
    · simp [countHeader, serverJsHeaders, htok, he]
    · simp [serverJsHeaders, htok, he, List.lookup]
  · intro resp r s hj h1 h2 h3 hne hok
    obtain ⟨-, hh⟩ := serverJsSuccess_ok resp r hok
    have hb : (s != "") = true := bne_iff_ne.mpr hne
    have htok : serverJsImageToken resp.headers = some s := by
      unfold serverJsImageToken
      rw [jsOrS_of_falsy _ _ h1, jsOrS_of_falsy _ _ h2, h3]
      exact jsTruthyFilter_some s hb
    have he : serverJsEditorUrl resp = none := by
      simp [serverJsEditorUrl, hj]
    rw [hh]
    constructor
    · simp [countHeader, serverJsHeaders, htok, he]
    · simp [serverJsHeaders, htok, he, List.lookup]
  · intro resp r hj h1 h2 h3 hok
    obtain ⟨-, hh⟩ := serverJsSuccess_ok resp r hok
    have htok : serverJsImageToken resp.headers = none := by
      unfold serverJsImageToken
      rw [jsOrS_of_falsy _ _ h1, jsOrS_of_falsy _ _ h2]
      exact jsTruthyFilter_falsy _ h3
    have he : serverJsEditorUrl resp = none := by
      simp [serverJsEditorUrl, hj]
    rw [hh]
    simp [serverJsHeaders, htok, he, List.lookup]

/-- Claim C8 witness: first-casing forwarding and token-free success. -/
theorem C8_token_forwarding_witness :
    (countHeader w8out.headers "X-Image-Token" = 1
     ∧ List.lookup "X-Image-Token" w8out.headers = some "tok-1")
    ∧ List.lookup "X-Image-Token" w8noneOut.headers = none :=
  ⟨C8_token_forwarding.1 w8resp w8out "tok-1" rfl rfl (by decide) rfl,
   C8_token_forwarding.2.2.2 w8none w8noneOut rfl rfl rfl rfl rfl⟩

/-- Claim C9: every successful outbound path — src/server.js (JSON envelope
or raw bytes) and both branches of the part_001 variant — carries the header
`Cache-Control: no-store`. -/
theorem C9_no_store :
    (∀ (resp : UpstreamResponse) (r : OutResponse),
        serverJsSuccess resp = .ok r → ("Cache-Control", "no-store") ∈ r.headers)
    ∧ (∀ (resp : UpstreamResponse) (r : OutResponse),
        part1Success resp = .ok r → ("Cache-Control", "no-store") ∈ r.headers) := by
  constructor
  · intro resp r h
    obtain ⟨-, hh⟩ := serverJsSuccess_ok resp r h
    rw [hh]
    simp [serverJsHeaders]
  · intro resp r h
    by_cases hobj : resp.data.isObjectLike = true
    · obtain ⟨-, hh⟩ := part1Success_ok_json resp r hobj h
      rw [hh]
      simp [part1JsonHeaders]
    · unfold part1Success at h
      rw [if_neg hobj] at h
      cases h
      simp

/-- Claim C9 witness: the binary branch of src/server.js and the JSON branch
of part_001 at concrete responses. -/
theorem C9_no_store_witness :
    ("Cache-Control", "no-store") ∈ w9out.headers
    ∧ ("Cache-Control", "no-store") ∈ w9outB.headers :=
  ⟨C9_no_store.1 w9resp w9out rfl, C9_no_store.2 w9respB w9outB rfl⟩

/-- Claim C10, counterexample: a JSON-envelope upstream response whose
header mapping contains `x-image-token` bound to the empty string yields an
outbound response without an `X-Image-Token` header (truthiness skips it),
so the claim's unconditional forwarding fails. -/
theorem C10_counterexample :
    isJsonResponse c10resp = true
    ∧ List.lookup "x-image-token" c10resp.headers = some ""
    ∧ (serverJsAfterUpstream (.success c10resp)).map
        (fun r => List.lookup "X-Image-Token" r.headers) = some none :=
  ⟨rfl, rfl, rfl⟩

/-- Claim C10, amended: token extraction from the upstream headers runs for
every successful src/server.js response, including JSON envelopes: when the
headers bind `x-image-token` to a non-empty value, the outbound response
carries `X-Image-Token` with that value even though no token field is read
from the JSON body. -/
theorem C10_json_token :
    ∀ (resp : UpstreamResponse) (r : OutResponse) (s : String),
      isJsonResponse resp = true →
      List.lookup "x-image-token" resp.headers = some s → s ≠ "" →
      serverJsSuccess resp = .ok r →
      List.lookup "X-Image-Token" r.headers = some s := by
  intro resp r s hj h1 hne hok
  obtain ⟨-, hh⟩ := serverJsSuccess_ok resp r hok
  have hb : (s != "") = true := bne_iff_ne.mpr hne
  have hs1 : strTruthy (List.lookup "x-image-token" resp.headers) = true := by
    rw [h1]; exact hb
  have htok : serverJsImageToken resp.headers = some s := by
    unfold serverJsImageToken
    rw [jsOrS_of_truthy _ _ hs1, jsOrS_of_truthy _ _ hs1, h1]
    exact jsTruthyFilter_some s hb
  rw [hh]
  cases he : serverJsEditorUrl resp <;>
    simp [serverJsHeaders, htok, he, List.lookup]

/-- Claim C10 witness: a JSON envelope with a non-empty token header. -/
theorem C10_json_token_witness :
    List.lookup "X-Image-Token" w10out.headers = some "tok-2" :=
  C10_json_token w10resp w10out "tok-2" rfl rfl (by decide) rfl
